import Mathlib

/-!
Shallow embedding of the rule-based triage and ICD-10 coding engine of the
team-better-health prescreening prototype: the classes `ICD10Mapper`
(file `src/pre-screening/src/icd10_mapper.py`) and `TriageClassifier` /
`MedicalDomainClassifier` (file `src/pre-screening/src/prescreening.py`).

Python strings are modelled as `List Char`; Python floats are modelled as
`ℚ`.  The rational model is exact for every reachable computation of the
mapper: as proved below, the multiplier branch of `calculate_confidence`
is never taken with the default tables, so the only float operations that
ever execute are comparisons and `min` on the table literals themselves,
and `int(confidence * 100)`, which agrees with the exact rational value on
every reachable confidence (see `pyIntTimes100`).
-/

abbrev Str := List Char

/-- Rational literal given by a numerator and a denominator that are already
in lowest terms, built directly in the kernel-computable normal form of
`Rat` (the usual division notation does not reduce in the kernel). -/
def q (n : ℤ) (d : ℕ) (h : d ≠ 0 := by decide) (r : n.natAbs.Coprime d := by decide) : ℚ :=
  Rat.mk' n d h r

/-- Python regex word character `\w`, restricted to ASCII: all table entries
and all matching in the source are ASCII. -/
def isWordChar (c : Char) : Bool := c.isAlphanum || c == '_'

/-- Python `str.lower()`. -/
def lowerStr (s : Str) : Str := s.map Char.toLower

/-- Python `str.strip()`. -/
def stripStr (s : Str) : Str :=
  ((s.dropWhile Char.isWhitespace).reverse.dropWhile Char.isWhitespace).reverse

/-- Python substring containment `pat in text`. -/
def containsSub (pat : Str) : Str → Bool
  | [] => pat.isEmpty
  | c :: rest => pat.isPrefixOf (c :: rest) || containsSub pat rest

/-- Matching of the regex boundary `\b` on the left of a literal pattern that
begins with a word character: the preceding character, if any, must not be a
word character. -/
def boundaryBefore : Option Char → Bool
  | none => true
  | some c => !isWordChar c

/-- Matching of the regex boundary `\b` on the right of a literal pattern that
ends with a word character: the following character, if any, must not be a
word character. -/
def boundaryAfter : Str → Bool
  | [] => true
  | c :: _ => !isWordChar c

/-- Worker for `wordBoundarySearch`: `prev` is the character immediately
before the current position (`none` at the start of the text). -/
def searchWordBound (pat : Str) : Option Char → Str → Bool
  | _, [] => false
  | prev, c :: rest =>
    (boundaryBefore prev && pat.isPrefixOf (c :: rest)
      && boundaryAfter ((c :: rest).drop pat.length))
    || searchWordBound pat (some c) rest

/-- Python `re.search(r'\b' + pat + r'\b', text) is not None` for a literal
pattern `pat` (every lexicon pattern is a literal word or phrase, with no
regex metacharacters, beginning and ending with a word character). -/
def wordBoundarySearch (pat text : Str) : Bool := searchWordBound pat none text

/-- Lookup in a Python `dict`, modelled as an insertion-ordered association
list with distinct keys. -/
def lookupAssoc {β : Type} (k : Str) : List (Str × β) → Option β
  | [] => none
  | kv :: rest => if k = kv.1 then some kv.2 else lookupAssoc k rest

/-- One `(code, description, base_confidence)` triple of the symptom
lexicon. -/
structure Candidate where
  code : Str
  description : Str
  base_confidence : ℚ
deriving DecidableEq

/-- Transcription of `ICD10Mapper.symptom_mappings` (the rationals are the
source's decimal base confidences in lowest terms). -/
def symptom_mappings : List (Str × List Candidate) := [
  ("cough".data, [
    ⟨"R05".data, "Cough".data, q 9 10⟩,
    ⟨"J00".data, "Acute nasopharyngitis [common cold]".data, q 3 5⟩,
    ⟨"J06.9".data, "Acute upper respiratory infection, unspecified".data, q 1 2⟩]),
  ("shortness of breath|difficulty breathing|dyspnea".data, [
    ⟨"R06.02".data, "Shortness of breath".data, q 19 20⟩,
    ⟨"J44.1".data, "Chronic obstructive pulmonary disease with acute exacerbation".data, q 2 5⟩,
    ⟨"I50.9".data, "Heart failure, unspecified".data, q 3 10⟩]),
  ("sore throat|throat pain".data, [
    ⟨"J02.9".data, "Acute pharyngitis, unspecified".data, q 17 20⟩,
    ⟨"J03.90".data, "Acute tonsillitis, unspecified".data, q 7 10⟩,
    ⟨"J06.9".data, "Acute upper respiratory infection, unspecified".data, q 3 5⟩]),
  ("runny nose|nasal congestion|stuffy nose".data, [
    ⟨"J00".data, "Acute nasopharyngitis [common cold]".data, q 4 5⟩,
    ⟨"J30.9".data, "Allergic rhinitis, unspecified".data, q 3 5⟩,
    ⟨"J06.9".data, "Acute upper respiratory infection, unspecified".data, q 1 2⟩]),
  ("wheezing".data, [
    ⟨"R06.2".data, "Wheezing".data, q 9 10⟩,
    ⟨"J45.9".data, "Asthma, unspecified".data, q 7 10⟩,
    ⟨"J44.1".data, "COPD with acute exacerbation".data, q 2 5⟩]),
  ("chest pain".data, [
    ⟨"R07.89".data, "Other chest pain".data, q 4 5⟩,
    ⟨"I20.9".data, "Angina pectoris, unspecified".data, q 2 5⟩,
    ⟨"R07.81".data, "Chest pain on breathing".data, q 3 5⟩]),
  ("heart palpitations|racing heart|irregular heartbeat".data, [
    ⟨"R00.2".data, "Palpitations".data, q 17 20⟩,
    ⟨"I47.1".data, "Supraventricular tachycardia".data, q 2 5⟩,
    ⟨"R00.1".data, "Bradycardia, unspecified".data, q 3 10⟩]),
  ("headache".data, [
    ⟨"R51".data, "Headache".data, q 9 10⟩,
    ⟨"G43.909".data, "Migraine, unspecified, not intractable, without status migrainosus".data, q 2 5⟩,
    ⟨"G44.1".data, "Vascular headache, not elsewhere classified".data, q 3 10⟩]),
  ("dizziness|lightheaded".data, [
    ⟨"R42".data, "Dizziness and giddiness".data, q 9 10⟩,
    ⟨"H81.10".data, "Benign paroxysmal positional vertigo, unspecified ear".data, q 2 5⟩,
    ⟨"R55".data, "Syncope and collapse".data, q 3 10⟩]),
  ("nausea".data, [
    ⟨"R11.10".data, "Vomiting, unspecified".data, q 4 5⟩,
    ⟨"R11.0".data, "Nausea".data, q 9 10⟩,
    ⟨"K59.00".data, "Constipation, unspecified".data, q 1 5⟩]),
  ("abdominal pain|stomach pain|belly pain".data, [
    ⟨"R10.9".data, "Unspecified abdominal pain".data, q 17 20⟩,
    ⟨"K59.00".data, "Constipation, unspecified".data, q 3 10⟩,
    ⟨"K21.9".data, "Gastro-esophageal reflux disease without esophagitis".data, q 2 5⟩]),
  ("diarrhea".data, [
    ⟨"K59.1".data, "Diarrhea, unspecified".data, q 9 10⟩,
    ⟨"A09".data, "Infectious gastroenteritis and colitis, unspecified".data, q 3 5⟩,
    ⟨"K58.9".data, "Irritable bowel syndrome, unspecified".data, q 2 5⟩]),
  ("constipation".data, [
    ⟨"K59.00".data, "Constipation, unspecified".data, q 9 10⟩,
    ⟨"K59.09".data, "Other constipation".data, q 7 10⟩]),
  ("fever".data, [
    ⟨"R50.9".data, "Fever, unspecified".data, q 9 10⟩,
    ⟨"A49.9".data, "Bacterial infection, unspecified".data, q 2 5⟩,
    ⟨"J00".data, "Acute nasopharyngitis [common cold]".data, q 1 2⟩]),
  ("fatigue|tired|weakness".data, [
    ⟨"R53.1".data, "Weakness".data, q 4 5⟩,
    ⟨"R53.83".data, "Fatigue".data, q 9 10⟩,
    ⟨"Z73.0".data, "Burn-out".data, q 3 10⟩]),
  ("joint pain|arthralgia".data, [
    ⟨"M25.50".data, "Pain in unspecified joint".data, q 4 5⟩,
    ⟨"M79.3".data, "Panniculitis, unspecified".data, q 3 10⟩,
    ⟨"M25.9".data, "Joint disorder, unspecified".data, q 3 5⟩]),
  ("back pain".data, [
    ⟨"M54.9".data, "Dorsalgia, unspecified".data, q 17 20⟩,
    ⟨"M54.5".data, "Low back pain".data, q 4 5⟩,
    ⟨"M25.50".data, "Pain in unspecified joint".data, q 2 5⟩]),
  ("rash|skin rash".data, [
    ⟨"R21".data, "Rash and other nonspecific skin eruption".data, q 9 10⟩,
    ⟨"L30.9".data, "Dermatitis, unspecified".data, q 3 5⟩,
    ⟨"L50.9".data, "Urticaria, unspecified".data, q 2 5⟩]),
  ("itching|pruritus".data, [
    ⟨"L29.9".data, "Pruritus, unspecified".data, q 9 10⟩,
    ⟨"L30.9".data, "Dermatitis, unspecified".data, q 1 2⟩])]

/-- Transcription of `ICD10Mapper.combination_modifiers`: required-symptom
combination key → (diagnostic code → multiplier). -/
def combination_modifiers : List (Str × List (Str × ℚ)) := [
  ("fever+cough".data, [
    ("J00".data, q 6 5), ("J06.9".data, q 13 10), ("A49.9".data, q 4 5)]),
  ("chest_pain+shortness_of_breath".data, [
    ("I20.9".data, q 3 2), ("R06.02".data, q 6 5), ("R07.89".data, q 11 10)]),
  ("headache+nausea".data, [
    ("G43.909".data, q 7 5), ("R51".data, q 11 10)]),
  ("cough+sore_throat+runny_nose".data, [
    ("J00".data, q 7 5), ("J06.9".data, q 13 10)])]

/-- Decision of `ICD10Mapper.extract_symptoms` for one pattern key against the
lowercased text, mirroring the source's branch on `'|' in pattern`: an OR
pattern is split on the pipe, each alternative is stripped and searched with
word boundaries, and the loop breaks at the first hit (so the full pattern key
is recorded at most once); a plain pattern is searched directly. -/
def patternFound (pat textLower : Str) : Bool :=
  if '|' ∈ pat then
    (pat.splitOn '|').any fun p => wordBoundarySearch (stripStr p) textLower
  else
    wordBoundarySearch pat textLower

/-- Model of `ICD10Mapper.extract_symptoms`.  The source appends the matching
keys in table order, each at most once, and finally applies `list(set(...))`,
which removes nothing (the keys are distinct) but leaves the order
unspecified; the model keeps the deterministic table order. -/
def extract_symptoms (text : Str) : List Str :=
  (symptom_mappings.map Prod.fst).filter fun pat => patternFound pat (lowerStr text)

/-- Normalisation `symptom.replace(' ', '_').replace('|', '_')` performed at
the top of `ICD10Mapper.calculate_confidence`. -/
def normalizeKey (s : Str) : Str :=
  s.map fun c => if c == ' ' then '_' else if c == '|' then '_' else c

/-- Replacement `combo_symptom.replace('_', ' ')`. -/
def underscoreToSpace (s : Str) : Str := s.map fun c => if c == '_' then ' ' else c

/-- Replacement `s.replace('|', ' ')`. -/
def pipeToSpace (s : Str) : Str := s.map fun c => if c == '|' then ' ' else c

/-- One iteration of the modifier loop of `ICD10Mapper.calculate_confidence`:
split the combination key on `+`, pre-filter by size, test each required
symptom by Python substring containment against the pipe-desugared matched
symptoms, and on success multiply by the table entry for `symptom_key` - the
source looks the normalised symptom key up in a table whose keys are
diagnostic codes, which is where the claims below bite. -/
def modifierStep (all_symptoms : List Str) (symptom_key : Str) (confidence : ℚ)
    (entry : Str × List (Str × ℚ)) : ℚ :=
  let combo_symptoms := entry.1.splitOn '+'
  if combo_symptoms.length ≤ all_symptoms.length then
    if combo_symptoms.all (fun cs =>
        all_symptoms.any fun s => containsSub (underscoreToSpace cs) (pipeToSpace s)) then
      match lookupAssoc symptom_key entry.2 with
      | some m => confidence * m
      | none => confidence
    else confidence
  else confidence

/-- Model of `ICD10Mapper.calculate_confidence`: fold the modifier loop over
the modifier table starting from the base confidence, then cap at 1.0 (upper
bound only, as in the source). -/
def calculate_confidence (symptom : Str) (base_confidence : ℚ)
    (all_symptoms : List Str) : ℚ :=
  min (combination_modifiers.foldl
        (modifierStep all_symptoms (normalizeKey symptom)) base_confidence) 1

/-- One value of the `code_suggestions` dict built by
`ICD10Mapper.map_symptoms_to_icd10` (the `code` key is kept in the record so
the dict can be modelled as an insertion-ordered list). -/
structure Suggestion where
  code : Str
  description : Str
  confidence : ℚ
  supporting_symptoms : List Str
deriving DecidableEq

/-- The dict update in the inner loop of `ICD10Mapper.map_symptoms_to_icd10`:
if the code is already present, raise its stored confidence and append the
symptom only when the new confidence is strictly greater; otherwise append a
fresh entry at the end (Python dict insertion order). -/
def updateSuggestions (symptom code description : Str) (confidence : ℚ) :
    List Suggestion → List Suggestion
  | [] => [⟨code, description, confidence, [symptom]⟩]
  | s :: rest =>
    if s.code = code then
      (if s.confidence < confidence then
        { s with confidence := confidence,
                 supporting_symptoms := s.supporting_symptoms ++ [symptom] }
       else s) :: rest
    else s :: updateSuggestions symptom code description confidence rest

/-- Body of the inner loop of `ICD10Mapper.map_symptoms_to_icd10`: one
candidate of the current symptom is pushed into the suggestion dict with its
adjusted confidence. -/
def innerStep (symptoms : List Str) (symptom : Str) (acc : List Suggestion)
    (c : Candidate) : List Suggestion :=
  updateSuggestions symptom c.code c.description
    (calculate_confidence symptom c.base_confidence symptoms) acc

/-- Body of the outer loop of `ICD10Mapper.map_symptoms_to_icd10` (the guard
`if symptom in self.symptom_mappings` is the `match`). -/
def outerStep (symptoms : List Str) (acc : List Suggestion) (symptom : Str) :
    List Suggestion :=
  match lookupAssoc symptom symptom_mappings with
  | some cands => cands.foldl (innerStep symptoms symptom) acc
  | none => acc

/-- The nested collection loops of `ICD10Mapper.map_symptoms_to_icd10`,
building the `code_suggestions` dict. -/
def collectSuggestions (symptoms : List Str) : List Suggestion :=
  symptoms.foldl (outerStep symptoms) []

/-- Insertion into a non-increasing list, before the first element whose
confidence is at most the inserted one.  Together with `sortDescend` this is
Python's stable `list.sort(key=lambda x: x['confidence'], reverse=True)`:
equal confidences keep their original relative order. -/
def insertDescend (x : Suggestion) : List Suggestion → List Suggestion
  | [] => [x]
  | y :: ys =>
    if y.confidence ≤ x.confidence then x :: y :: ys else y :: insertDescend x ys

/-- Stable sort by strictly decreasing confidence (see `insertDescend`). -/
def sortDescend : List Suggestion → List Suggestion
  | [] => []
  | x :: xs => insertDescend x (sortDescend xs)

/-- Model of `ICD10Mapper.map_symptoms_to_icd10` (the unused `patient_info`
parameter is omitted): extract the symptoms, return `[]` when none matched,
otherwise collect the code suggestions, sort them by descending confidence
and keep the top 5. -/
def map_symptoms_to_icd10 (text : Str) : List Suggestion :=
  let symptoms := extract_symptoms text
  if symptoms.isEmpty then []
  else (sortDescend (collectSuggestions symptoms)).take 5

/-- Model of `ICD10Mapper.format_confidence_level`. -/
def format_confidence_level (confidence : ℚ) : Str × Str :=
  if q 4 5 ≤ confidence then ("High".data, "green".data)
  else if q 3 5 ≤ confidence then ("Medium".data, "yellow".data)
  else if q 2 5 ≤ confidence then ("Low".data, "orange".data)
  else ("Very Low".data, "red".data)

/-- Python `int(x * 100)` (truncation toward zero), computed on the raw
fraction as `(100 * num).tdiv den`.  Truncation does not require the fraction
to be in lowest terms, so this equals `⌊100x⌋` truncated toward zero while
avoiding `Rat` multiplication, whose `Nat.gcd` normalisation does not reduce
in the kernel.  On every reachable confidence value the Python float
expression `int(confidence * 100)` yields the same integer. -/
def pyIntTimes100 (x : ℚ) : ℤ := (100 * x.num).tdiv x.den

/-- One entry of the `suggestions` list of the report dict produced by
`ICD10Mapper.generate_icd10_report`. -/
structure FormattedSuggestion where
  code : Str
  description : Str
  confidence_score : ℚ
  confidence_text : Str
  confidence_color : Str
  supporting_symptoms : List Str
  percentage : ℤ
deriving DecidableEq

/-- The dict returned by `ICD10Mapper.generate_icd10_report`.  A key that one
branch of the source omits from the literal is `none` in that branch. -/
structure Report where
  has_suggestions : Bool
  message : Option Str
  suggestions : List FormattedSuggestion
  disclaimer : Option Str
  total_codes : Option ℕ
deriving DecidableEq

/-- Disclaimer string of the report (the leading warning-emoji bytes of the
source literal are elided; no claim depends on the exact text). -/
def disclaimerText : Str :=
  ("IMPORTANT: These ICD-10 codes are AI-generated suggestions only. " ++
   "Professional medical review and validation required for clinical use, " ++
   "billing, or diagnostic purposes.").data

/-- Model of `ICD10Mapper.generate_icd10_report` (the unused `patient_info`
parameter is omitted). -/
def generate_icd10_report (symptoms_text : Str) : Report :=
  let suggestions := map_symptoms_to_icd10 symptoms_text
  if suggestions.isEmpty then
    { has_suggestions := false
      message := some "No ICD-10 codes could be mapped from the provided symptoms.".data
      suggestions := []
      disclaimer := none
      total_codes := none }
  else
    let formatted := suggestions.map fun s =>
      let tc := format_confidence_level s.confidence
      FormattedSuggestion.mk s.code s.description s.confidence tc.1 tc.2
        s.supporting_symptoms (pyIntTimes100 s.confidence)
    { has_suggestions := true
      message := none
      suggestions := formatted
      disclaimer := some disclaimerText
      total_codes := some formatted.length }

/-- The `UrgencyLevel` enum of `prescreening.py`. -/
inductive UrgencyLevel
  | immediate
  | urgent
  | moderate
  | low
deriving DecidableEq

/-- Transcription of `TriageClassifier.emergency_keywords`
(category → keyword list). -/
def emergency_keywords : List (Str × List Str) := [
  ("chest_pain".data,
    ["chest pain".data, "heart attack".data, "crushing pain".data, "chest pressure".data]),
  ("breathing".data,
    ["can\x27t breathe".data, "difficulty breathing".data, "shortness of breath".data,
     "suffocating".data]),
  ("consciousness".data,
    ["unconscious".data, "passed out".data, "fainting".data, "blackout".data, "seizure".data]),
  ("bleeding".data,
    ["severe bleeding".data, "heavy bleeding".data, "blood loss".data, "hemorrhage".data]),
  ("allergic".data,
    ["allergic reaction".data, "anaphylaxis".data, "severe allergy".data, "swelling face".data]),
  ("stroke".data,
    ["stroke".data, "face drooping".data, "arm weakness".data, "speech slurred".data,
     "sudden confusion".data]),
  ("mental_health".data,
    ["suicide".data, "self-harm".data, "want to die".data, "hurt myself".data])]

/-- Transcription of `TriageClassifier.urgent_keywords`. -/
def urgent_keywords : List (Str × List Str) := [
  ("severe_pain".data,
    ["severe pain".data, "excruciating".data, "unbearable pain".data, "10/10 pain".data]),
  ("high_fever".data,
    ["high fever".data, "fever over".data, "104".data, "40 degrees".data]),
  ("infection_signs".data,
    ["infected".data, "pus".data, "red streak".data, "spreading redness".data]),
  ("vomiting".data,
    ["can\x27t keep down".data, "persistent vomiting".data, "dehydrated".data]),
  ("vision_changes".data,
    ["sudden vision loss".data, "double vision".data, "blind".data])]

/-- Transcription of `TriageClassifier.moderate_keywords`. -/
def moderate_keywords : List (Str × List Str) := [
  ("persistent".data,
    ["persistent".data, "ongoing".data, "won\x27t go away".data, "getting worse".data]),
  ("fever".data,
    ["fever".data, "temperature".data, "chills".data]),
  ("pain".data,
    ["pain".data, "ache".data, "sore".data, "tender".data]),
  ("digestive".data,
    ["nausea".data, "vomiting".data, "diarrhea".data, "stomach".data]),
  ("respiratory".data,
    ["cough".data, "congestion".data, "runny nose".data, "sinus".data])]

/-- One tier check of `TriageClassifier.classify_urgency`: does any keyword of
any category occur as a substring of the combined lowercased text? -/
def anyKeywordHit (table : List (Str × List Str)) (text : Str) : Bool :=
  table.any fun cat => cat.2.any fun k => containsSub k text

/-- Model of `TriageClassifier.classify_urgency`: lowercase
`query + " " + response_text` and test the tiers in priority order. -/
def classify_urgency (query response_text : Str) : UrgencyLevel :=
  let combined_text := lowerStr (query ++ " ".data ++ response_text)
  if anyKeywordHit emergency_keywords combined_text then .immediate
  else if anyKeywordHit urgent_keywords combined_text then .urgent
  else if anyKeywordHit moderate_keywords combined_text then .moderate
  else .low

/-- Transcription of `MedicalDomainClassifier.domain_keywords`. -/
def domain_keywords : List (Str × List Str) := [
  ("cardiology".data,
    ["heart".data, "chest".data, "cardiac".data, "blood pressure".data, "palpitations".data]),
  ("pulmonology".data,
    ["lung".data, "breathing".data, "cough".data, "respiratory".data, "chest pain".data]),
  ("gastroenterology".data,
    ["stomach".data, "digestive".data, "nausea".data, "vomiting".data, "diarrhea".data]),
  ("neurology".data,
    ["headache".data, "dizzy".data, "numbness".data, "weakness".data, "seizure".data]),
  ("dermatology".data,
    ["skin".data, "rash".data, "itch".data, "mole".data, "burn".data]),
  ("orthopedics".data,
    ["bone".data, "joint".data, "muscle".data, "back pain".data, "fracture".data]),
  ("psychiatry".data,
    ["depression".data, "anxiety".data, "mental health".data, "stress".data]),
  ("infectious_disease".data,
    ["fever".data, "infection".data, "virus".data, "bacteria".data, "flu".data])]

/-- Model of `MedicalDomainClassifier.classify_domain`: every domain with at
least one substring hit, in table order, with `["general_medicine"]` as the
fallback when nothing matched. -/
def classify_domain (query : Str) : List Str :=
  let query_lower := lowerStr query
  let relevant_domains := (domain_keywords.filter fun d =>
    d.2.any fun k => containsSub k query_lower).map Prod.fst
  if relevant_domains.isEmpty then ["general_medicine".data] else relevant_domains

/-! ### Supporting lemmas -/

theorem lookupAssoc_eq_some {β : Type} {k : Str} {v : β} :
    ∀ {m : List (Str × β)}, lookupAssoc k m = some v → (k, v) ∈ m := by
  intro m
  induction m with
  | nil => intro h; simp [lookupAssoc] at h
  | cons kv rest ih =>
    intro h
    rw [lookupAssoc] at h
    by_cases hk : k = kv.1
    · rw [if_pos hk] at h
      obtain rfl : kv.2 = v := by injection h
      subst hk
      simp
    · rw [if_neg hk] at h
      exact List.mem_cons_of_mem _ (ih h)

theorem foldl_fixed {α β : Type} {f : α → β → α} {l : List β}
    (h : ∀ e ∈ l, ∀ c, f c e = c) : ∀ b, l.foldl f b = b := by
  induction l with
  | nil => intro b; rfl
  | cons e rest ih =>
    intro b
    rw [List.foldl_cons, h e (List.mem_cons_self e rest)]
    exact ih (fun e' he' c => h e' (List.mem_cons_of_mem _ he') c) b

theorem modifierStep_of_lookup_none {all_symptoms : List Str} {symptom_key : Str}
    {entry : Str × List (Str × ℚ)} (h : lookupAssoc symptom_key entry.2 = none)
    (confidence : ℚ) : modifierStep all_symptoms symptom_key confidence entry = confidence := by
  rw [modifierStep]
  split
  · split
    · rw [h]
    · rfl
  · rfl

/-- Key fact behind several claims: for every symptom key of the default
lexicon, the normalised key is not a key of any multiplier table (those are
keyed by diagnostic codes), so the multiplier branch never fires. -/
theorem normalized_keys_miss_modifiers :
    ∀ s ∈ symptom_mappings.map Prod.fst, ∀ e ∈ combination_modifiers,
      lookupAssoc (normalizeKey s) e.2 = none := by decide

/-- With the default tables, `calculate_confidence` ignores the matched
symptom set entirely and returns `min base 1`. -/
theorem calculate_confidence_fixed {symptom : Str}
    (h : symptom ∈ symptom_mappings.map Prod.fst)
    (base_confidence : ℚ) (all_symptoms : List Str) :
    calculate_confidence symptom base_confidence all_symptoms = min base_confidence 1 := by
  rw [calculate_confidence,
    foldl_fixed (fun e he c =>
      modifierStep_of_lookup_none (normalized_keys_miss_modifiers symptom h e he) c)]

theorem mem_insertDescend {y x : Suggestion} :
    ∀ {l : List Suggestion}, y ∈ insertDescend x l ↔ y = x ∨ y ∈ l := by
  intro l
  induction l with
  | nil => simp [insertDescend]
  | cons z zs ih =>
    rw [insertDescend]
    split
    · simp
    · rw [List.mem_cons, List.mem_cons, ih]
      tauto

theorem mem_sortDescend {y : Suggestion} :
    ∀ {l : List Suggestion}, y ∈ sortDescend l ↔ y ∈ l := by
  intro l
  induction l with
  | nil => simp [sortDescend]
  | cons z zs ih =>
    rw [sortDescend, mem_insertDescend, List.mem_cons, ih]

theorem pairwise_insertDescend {x : Suggestion} :
    ∀ {l : List Suggestion},
      l.Pairwise (fun a b => b.confidence ≤ a.confidence) →
      (insertDescend x l).Pairwise (fun a b => b.confidence ≤ a.confidence) := by
  intro l
  induction l with
  | nil => intro _; simp [insertDescend]
  | cons z zs ih =>
    intro h
    rw [List.pairwise_cons] at h
    rw [insertDescend]
    split
    · rename_i hzx
      rw [List.pairwise_cons]
      refine ⟨?_, List.pairwise_cons.2 h⟩
      intro b hb
      rcases List.mem_cons.1 hb with rfl | hb2
      · exact hzx
      · exact le_trans (h.1 b hb2) hzx
    · rename_i hzx
      rw [List.pairwise_cons]
      refine ⟨?_, ih h.2⟩
      intro b hb
      rcases mem_insertDescend.1 hb with rfl | hb2
      · exact le_of_lt (lt_of_not_le hzx)
      · exact h.1 b hb2

theorem pairwise_sortDescend :
    ∀ (l : List Suggestion),
      (sortDescend l).Pairwise (fun a b => b.confidence ≤ a.confidence) := by
  intro l
  induction l with
  | nil => simp [sortDescend]
  | cons z zs ih => exact pairwise_insertDescend ih

theorem filter_insertDescend (c : ℚ) (x : Suggestion) :
    ∀ (l : List Suggestion),
      (insertDescend x l).filter (fun s => decide (s.confidence = c)) =
        if x.confidence = c then
          x :: l.filter (fun s => decide (s.confidence = c))
        else l.filter (fun s => decide (s.confidence = c)) := by
  intro l
  induction l with
  | nil =>
    rw [insertDescend]
    by_cases hx : x.confidence = c
    · simp [List.filter, hx]
    · simp [List.filter, hx]
  | cons z zs ih =>
    rw [insertDescend]
    split
    · rename_i hzx
      by_cases hx : x.confidence = c
      · rw [if_pos hx]
        simp [List.filter, hx]
      · rw [if_neg hx]
        simp [List.filter, hx]
    · rename_i hzx
      by_cases hx : x.confidence = c
      · rw [if_pos hx]
        have hz : ¬ z.confidence = c := by
          intro hzc
          exact hzx (le_of_eq (hx ▸ hzc))
        simp [List.filter, hz, ih, if_pos hx]
      · rw [if_neg hx]
        by_cases hz : z.confidence = c
        · simp [List.filter, hz, ih, if_neg hx]
        · simp [List.filter, hz, ih, if_neg hx]

theorem filter_sortDescend (c : ℚ) :
    ∀ (l : List Suggestion),
      (sortDescend l).filter (fun s => decide (s.confidence = c)) =
        l.filter (fun s => decide (s.confidence = c)) := by
  intro l
  induction l with
  | nil => rfl
  | cons z zs ih =>
    rw [sortDescend, filter_insertDescend]
    by_cases hz : z.confidence = c
    · rw [if_pos hz, ih]
      simp [List.filter, hz]
    · rw [if_neg hz, ih]
      simp [List.filter, hz]

/-- Flattening of the two nested collection loops: the `(symptom, candidate)`
pairs processed by `map_symptoms_to_icd10`, in processing order. -/
def symptomPairs (symptoms : List Str) : List (Str × Candidate) :=
  symptoms.flatMap fun s => ((lookupAssoc s symptom_mappings).getD []).map fun c => (s, c)

/-- The dict update performed for one `(symptom, candidate)` pair. -/
def pairStep (symptoms : List Str) (acc : List Suggestion) (p : Str × Candidate) :
    List Suggestion :=
  updateSuggestions p.1 p.2.code p.2.description
    (calculate_confidence p.1 p.2.base_confidence symptoms) acc

theorem foldl_outer_eq_pairs (symptoms : List Str) :
    ∀ (syms : List Str) (acc : List Suggestion),
      syms.foldl (outerStep symptoms) acc =
        (syms.flatMap fun s =>
          ((lookupAssoc s symptom_mappings).getD []).map fun c => (s, c)).foldl
          (pairStep symptoms) acc := by
  intro syms
  induction syms with
  | nil => intro acc; rfl
  | cons s rest ih =>
    intro acc
    rw [List.foldl_cons, List.flatMap_cons, List.foldl_append, List.foldl_map, ih]
    congr 1
    rw [outerStep]
    cases h : lookupAssoc s symptom_mappings with
    | none => rfl
    | some cands => rfl

theorem collect_eq_pairs (symptoms : List Str) :
    collectSuggestions symptoms = (symptomPairs symptoms).foldl (pairStep symptoms) [] :=
  foldl_outer_eq_pairs symptoms symptoms []

/-- Adjusted confidences produced for `code` by the pairs of `L` (each matched
symptom contributes one entry per candidate sharing the code). -/
def confsOf (symptoms : List Str) (L : List (Str × Candidate)) (code : Str) : List ℚ :=
  L.filterMap fun p =>
    if p.2.code = code then
      some (calculate_confidence p.1 p.2.base_confidence symptoms)
    else none

/-- Symptoms of the pairs of `L` that produce a confidence for `code`. -/
def sympsOf (L : List (Str × Candidate)) (code : Str) : List Str :=
  L.filterMap fun p => if p.2.code = code then some p.1 else none

/-- All adjusted confidences produced for `code` on the matched symptom set
`symptoms`. -/
def producedConfs (symptoms : List Str) (code : Str) : List ℚ :=
  confsOf symptoms (symptomPairs symptoms) code

/-- All matched symptoms that produce a confidence for `code`. -/
def producingSymptoms (symptoms : List Str) (code : Str) : List Str :=
  sympsOf (symptomPairs symptoms) code

theorem updateSuggestions_of_forall_ne {code : Str} {sym desc : Str} {conf : ℚ} :
    ∀ {acc : List Suggestion}, (∀ s ∈ acc, s.code ≠ code) →
      updateSuggestions sym code desc conf acc = acc ++ [⟨code, desc, conf, [sym]⟩] := by
  intro acc
  induction acc with
  | nil => intro _; rfl
  | cons s rest ih =>
    intro h
    rw [updateSuggestions, if_neg (h s (List.mem_cons_self s rest)), List.cons_append]
    rw [ih (fun s' hs' => h s' (List.mem_cons_of_mem _ hs'))]

theorem updateSuggestions_append_cons {code : Str} {sym desc : Str} {conf : ℚ}
    {m : Suggestion} (hm : m.code = code) :
    ∀ {l₁ : List Suggestion} (l₂ : List Suggestion), (∀ y ∈ l₁, y.code ≠ code) →
      updateSuggestions sym code desc conf (l₁ ++ m :: l₂) =
        l₁ ++ (if m.confidence < conf then
          { m with confidence := conf,
                   supporting_symptoms := m.supporting_symptoms ++ [sym] }
         else m) :: l₂ := by
  intro l₁
  induction l₁ with
  | nil =>
    intro l₂ _
    rw [List.nil_append, List.nil_append, updateSuggestions, if_pos hm]
  | cons y ys ih =>
    intro l₂ h
    rw [List.cons_append, updateSuggestions, if_neg (h y (List.mem_cons_self y ys)),
      ih l₂ (fun y' hy' => h y' (List.mem_cons_of_mem _ hy')), List.cons_append]

/-- First-occurrence decomposition of a suggestion list at a present code. -/
theorem exists_split_of_code_mem :
    ∀ {acc : List Suggestion} {code : Str}, (∃ s ∈ acc, s.code = code) →
      ∃ l₁ m l₂, acc = l₁ ++ m :: l₂ ∧ m.code = code ∧ ∀ y ∈ l₁, y.code ≠ code := by
  intro acc
  induction acc with
  | nil => intro code h; obtain ⟨s, hs, _⟩ := h; exact absurd hs (List.not_mem_nil s)
  | cons s rest ih =>
    intro code h
    by_cases hs : s.code = code
    · exact ⟨[], s, rest, rfl, hs, by intro y hy; exact absurd hy (List.not_mem_nil y)⟩
    · obtain ⟨t, ht, htc⟩ := h
      rcases List.mem_cons.1 ht with rfl | ht2
      · exact absurd htc hs
      · obtain ⟨l₁, m, l₂, heq, hmc, hl₁⟩ := ih ⟨t, ht2, htc⟩
        refine ⟨s :: l₁, m, l₂, by rw [heq, List.cons_append], hmc, ?_⟩
        intro y hy
        rcases List.mem_cons.1 hy with rfl | hy2
        · exact hs
        · exact hl₁ y hy2

theorem confsOf_append_single (symptoms : List Str) (L : List (Str × Candidate))
    (p : Str × Candidate) (c : Str) :
    confsOf symptoms (L ++ [p]) c =
      confsOf symptoms L c ++
        (if p.2.code = c then [calculate_confidence p.1 p.2.base_confidence symptoms]
         else []) := by
  rw [confsOf, List.filterMap_append]
  congr 1
  by_cases h : p.2.code = c
  · simp [h]
  · simp [h]

theorem sympsOf_append_single (L : List (Str × Candidate)) (p : Str × Candidate) (c : Str) :
    sympsOf (L ++ [p]) c = sympsOf L c ++ (if p.2.code = c then [p.1] else []) := by
  rw [sympsOf, List.filterMap_append]
  congr 1
  by_cases h : p.2.code = c
  · simp [h]
  · simp [h]

/-- Invariant of the suggestion-dict fold of `map_symptoms_to_icd10`: after
processing the pairs of `L`, the stored codes are exactly the codes produced
so far, without duplicates; each stored confidence is a produced confidence
for its code and an upper bound of all confidences produced for it; and each
supporting-symptom list is nonempty and contains only producers of its
code. -/
def RankerInv (symptoms : List Str) (L : List (Str × Candidate))
    (acc : List Suggestion) : Prop :=
  (acc.map Suggestion.code).Nodup ∧
  (∀ code : Str, (∃ sg ∈ acc, sg.code = code) ↔ confsOf symptoms L code ≠ []) ∧
  ∀ sg ∈ acc,
    sg.confidence ∈ confsOf symptoms L sg.code ∧
    (∀ x ∈ confsOf symptoms L sg.code, x ≤ sg.confidence) ∧
    sg.supporting_symptoms ≠ [] ∧
    ∀ y ∈ sg.supporting_symptoms, y ∈ sympsOf L sg.code

theorem rankerInv_foldl (symptoms : List Str) :
    ∀ L : List (Str × Candidate),
      RankerInv symptoms L (L.foldl (pairStep symptoms) []) := by
  intro L
  induction L using List.reverseRecOn with
  | nil =>
    unfold RankerInv
    refine ⟨by simp, ?_, ?_⟩
    · intro code
      simp [confsOf]
    · intro sg hsg
      exact absurd hsg (List.not_mem_nil sg)
  | append_singleton L p ih =>
    unfold RankerInv at ih ⊢
    obtain ⟨ihN, ihI, ihS⟩ := ih
    rw [List.foldl_append, List.foldl_cons, List.foldl_nil]
    set acc := L.foldl (pairStep symptoms) [] with hacc
    set cp := calculate_confidence p.1 p.2.base_confidence symptoms with hcp
    have hconfs : ∀ c, confsOf symptoms (L ++ [p]) c =
        confsOf symptoms L c ++ (if p.2.code = c then [cp] else []) := fun c =>
      confsOf_append_single symptoms L p c
    have hsymps : ∀ c, sympsOf (L ++ [p]) c =
        sympsOf L c ++ (if p.2.code = c then [p.1] else []) := fun c =>
      sympsOf_append_single L p c
    by_cases hmem : ∃ sg ∈ acc, sg.code = p.2.code
    · obtain ⟨l₁, m, l₂, heq, hmc, hl₁⟩ := exists_split_of_code_mem hmem
      set m' := (if m.confidence < cp then
          { m with confidence := cp,
                   supporting_symptoms := m.supporting_symptoms ++ [p.1] }
         else m) with hm'
      have hupd : pairStep symptoms acc p = l₁ ++ m' :: l₂ := by
        rw [pairStep, heq, updateSuggestions_append_cons hmc l₂ hl₁]
      have hm'c : m'.code = m.code := by
        rw [hm']
        split
        · rfl
        · rfl
      have hl₂ : ∀ y ∈ l₂, y.code ≠ p.2.code := by
        have hN2 := ihN
        rw [heq, List.map_append, List.map_cons] at hN2
        have hml₂ : m.code ∉ l₂.map Suggestion.code :=
          (List.nodup_cons.1 (List.nodup_append.1 hN2).2.1).1
        intro y hy hyc
        refine hml₂ ?_
        rw [hmc, ← hyc]
        exact List.mem_map_of_mem Suggestion.code hy
      have hmacc : m ∈ acc := by
        rw [heq]
        exact List.mem_append_right l₁ (List.mem_cons_self m l₂)
      obtain ⟨hmc1, hmc2, hmc3, hmc4⟩ := ihS m hmacc
      refine ⟨?_, ?_, ?_⟩
      · rw [hupd, List.map_append, List.map_cons, hm'c]
        rw [heq, List.map_append, List.map_cons] at ihN
        exact ihN
      · intro c
        rw [hupd, hconfs c]
        constructor
        · rintro ⟨sg, hsg, hc⟩
          have hold : confsOf symptoms L c ≠ [] := by
            rcases List.mem_append.1 hsg with h1 | h2
            · exact (ihI c).1 ⟨sg, heq ▸ List.mem_append_left _ h1, hc⟩
            · rcases List.mem_cons.1 h2 with rfl | h3
              · exact (ihI c).1 ⟨m, hmacc, hm'c ▸ hc⟩
              · exact (ihI c).1
                  ⟨sg, heq ▸ List.mem_append_right _ (List.mem_cons_of_mem m h3), hc⟩
          intro habs
          rw [List.append_eq_nil] at habs
          exact hold habs.1
        · intro h
          by_cases hc : p.2.code = c
          · refine ⟨m', List.mem_append_right l₁ (List.mem_cons_self m' l₂), ?_⟩
            rw [hm'c, hmc, hc]
          · rw [if_neg hc, List.append_nil] at h
            obtain ⟨sg, hsg, hsgc⟩ := (ihI c).2 h
            rw [heq] at hsg
            rcases List.mem_append.1 hsg with h1 | h2
            · exact ⟨sg, List.mem_append_left _ h1, hsgc⟩
            · rcases List.mem_cons.1 h2 with rfl | h3
              · refine ⟨m', List.mem_append_right l₁ (List.mem_cons_self m' l₂), ?_⟩
                rw [hm'c]
                exact hsgc
              · exact ⟨sg, List.mem_append_right _ (List.mem_cons_of_mem m' h3), hsgc⟩
      · intro sg hsg
        rw [hupd] at hsg
        rcases List.mem_append.1 hsg with h1 | h2
        · have hne : p.2.code ≠ sg.code := fun h => hl₁ sg h1 h.symm
          obtain ⟨hc1, hc2, hc3, hc4⟩ := ihS sg (heq ▸ List.mem_append_left _ h1)
          rw [hconfs, if_neg hne, List.append_nil]
          refine ⟨hc1, hc2, hc3, ?_⟩
          intro y hy
          rw [hsymps, if_neg hne, List.append_nil]
          exact hc4 y hy
        · rcases List.mem_cons.1 h2 with rfl | h3
          · rw [hconfs, hsymps, hm'c, hmc, if_pos rfl, if_pos rfl]
            rw [hmc] at hmc1 hmc2 hmc4
            by_cases hlt : m.confidence < cp
            · rw [hm', if_pos hlt]
              refine ⟨List.mem_append_right _ (List.mem_singleton_self cp), ?_, by simp, ?_⟩
              · intro x hx
                rcases List.mem_append.1 hx with hx1 | hx2
                · exact le_of_lt (lt_of_le_of_lt (hmc2 x hx1) hlt)
                · rw [List.mem_singleton.1 hx2]
              · intro y hy
                rcases List.mem_append.1 hy with hy1 | hy2
                · exact List.mem_append_left _ (hmc4 y hy1)
                · rw [List.mem_singleton.1 hy2]
                  exact List.mem_append_right _ (List.mem_singleton_self p.1)
            · rw [hm', if_neg hlt]
              refine ⟨List.mem_append_left _ hmc1, ?_, hmc3, ?_⟩
              · intro x hx
                rcases List.mem_append.1 hx with hx1 | hx2
                · exact hmc2 x hx1
                · rw [List.mem_singleton.1 hx2]
                  exact le_of_not_lt hlt
              · intro y hy
                exact List.mem_append_left _ (hmc4 y hy)
          · have hne : p.2.code ≠ sg.code := fun h => hl₂ sg h3 h.symm
            obtain ⟨hc1, hc2, hc3, hc4⟩ := ihS sg
              (heq ▸ List.mem_append_right _ (List.mem_cons_of_mem m h3))
            rw [hconfs, if_neg hne, List.append_nil]
            refine ⟨hc1, hc2, hc3, ?_⟩
            intro y hy
            rw [hsymps, if_neg hne, List.append_nil]
            exact hc4 y hy
    · have hforall : ∀ s ∈ acc, s.code ≠ p.2.code := by
        intro s hs h
        exact hmem ⟨s, hs, h⟩
      have hLempty : confsOf symptoms L p.2.code = [] := by
        by_contra h
        exact hmem ((ihI p.2.code).2 h)
      have hupd : pairStep symptoms acc p =
          acc ++ [⟨p.2.code, p.2.description, cp, [p.1]⟩] := by
        rw [pairStep]
        exact updateSuggestions_of_forall_ne hforall
      refine ⟨?_, ?_, ?_⟩
      · rw [hupd, List.map_append, List.map_cons, List.map_nil]
        rw [List.nodup_append]
        refine ⟨ihN, by simp, ?_⟩
        intro a ha hb
        rw [List.mem_singleton.1 hb] at ha
        obtain ⟨s, hs, hsc⟩ := List.mem_map.1 ha
        exact hforall s hs hsc
      · intro c
        rw [hupd, hconfs c]
        constructor
        · rintro ⟨sg, hsg, hc⟩
          rcases List.mem_append.1 hsg with h1 | h2
          · have hold := (ihI c).1 ⟨sg, h1, hc⟩
            intro habs
            rw [List.append_eq_nil] at habs
            exact hold habs.1
          · rw [List.mem_singleton.1 h2] at hc
            rw [if_pos hc]
            simp
        · intro h
          by_cases hc : p.2.code = c
          · exact ⟨⟨p.2.code, p.2.description, cp, [p.1]⟩,
              List.mem_append_right acc (List.mem_singleton_self _), hc⟩
          · rw [if_neg hc, List.append_nil] at h
            obtain ⟨sg, hsg, hsgc⟩ := (ihI c).2 h
            exact ⟨sg, List.mem_append_left _ hsg, hsgc⟩
      · intro sg hsg
        rw [hupd] at hsg
        rcases List.mem_append.1 hsg with h1 | h2
        · have hne : p.2.code ≠ sg.code := fun h => hforall sg h1 h.symm
          obtain ⟨hc1, hc2, hc3, hc4⟩ := ihS sg h1
          rw [hconfs, if_neg hne, List.append_nil]
          refine ⟨hc1, hc2, hc3, ?_⟩
          intro y hy
          rw [hsymps, if_neg hne, List.append_nil]
          exact hc4 y hy
        · rw [List.mem_singleton.1 h2]
          rw [hconfs, hsymps, if_pos rfl, if_pos rfl, hLempty, List.nil_append]
          refine ⟨List.mem_singleton_self cp, ?_, by simp, ?_⟩
          · intro x hx
            rw [List.mem_singleton.1 hx]
          · intro y hy
            rw [List.mem_singleton.1 hy]
            exact List.mem_append_right _ (List.mem_singleton_self p.1)

/-- Every base confidence of the default lexicon lies in `[0, 1]`. -/
theorem base_confidence_bounds :
    ∀ kv ∈ symptom_mappings, ∀ c ∈ kv.2,
      0 ≤ c.base_confidence ∧ c.base_confidence ≤ 1 := by decide

theorem mem_symptomPairs {symptoms : List Str} {p : Str × Candidate}
    (h : p ∈ symptomPairs symptoms) :
    ∃ cands, lookupAssoc p.1 symptom_mappings = some cands ∧ p.2 ∈ cands := by
  rw [symptomPairs, List.mem_flatMap] at h
  obtain ⟨s, _, hp⟩ := h
  obtain ⟨c, hc, rfl⟩ := List.mem_map.1 hp
  cases hl : lookupAssoc s symptom_mappings with
  | none => rw [hl] at hc; exact absurd hc (List.not_mem_nil c)
  | some cands => rw [hl] at hc; exact ⟨cands, rfl, hc⟩

theorem mem_confsOf {symptoms : List Str} {L : List (Str × Candidate)} {code : Str}
    {x : ℚ} (h : x ∈ confsOf symptoms L code) :
    ∃ p ∈ L, p.2.code = code ∧
      x = calculate_confidence p.1 p.2.base_confidence symptoms := by
  rw [confsOf, List.mem_filterMap] at h
  obtain ⟨p, hp, hx⟩ := h
  by_cases hc : p.2.code = code
  · rw [if_pos hc] at hx
    exact ⟨p, hp, hc, (Option.some_injective ℚ hx).symm⟩
  · rw [if_neg hc] at hx
    exact absurd hx (Option.some_ne_none _).symm

/-- Any confidence produced on any matched-symptom set is in `[0, 1]`:
the pair's symptom is a lexicon key, so the adjusted confidence is
`min base 1` for one of the table's base confidences. -/
theorem producedConf_bounds {symptoms : List Str} {code : Str} {x : ℚ}
    (h : x ∈ producedConfs symptoms code) : 0 ≤ x ∧ x ≤ 1 := by
  obtain ⟨p, hp, _, hx⟩ := mem_confsOf h
  obtain ⟨cands, hl, hc⟩ := mem_symptomPairs hp
  have hkv : (p.1, cands) ∈ symptom_mappings := lookupAssoc_eq_some hl
  have hkey : p.1 ∈ symptom_mappings.map Prod.fst :=
    List.mem_map.2 ⟨(p.1, cands), hkv, rfl⟩
  have hbase := base_confidence_bounds (p.1, cands) hkv p.2 hc
  rw [hx, calculate_confidence_fixed hkey]
  exact ⟨le_min hbase.1 zero_le_one, min_le_right _ _⟩

theorem mem_map_symptoms_to_icd10 {sg : Suggestion} {text : Str}
    (h : sg ∈ map_symptoms_to_icd10 text) :
    sg ∈ collectSuggestions (extract_symptoms text) := by
  rw [map_symptoms_to_icd10] at h
  split at h
  · exact absurd h (List.not_mem_nil sg)
  · exact mem_sortDescend.1 ((List.take_sublist 5 _).subset h)

/-- Everything the ranker invariant yields for a suggestion returned by
`map_symptoms_to_icd10`. -/
theorem map_symptoms_invariant {sg : Suggestion} {text : Str}
    (h : sg ∈ map_symptoms_to_icd10 text) :
    sg.confidence ∈ producedConfs (extract_symptoms text) sg.code ∧
    (∀ x ∈ producedConfs (extract_symptoms text) sg.code, x ≤ sg.confidence) ∧
    sg.supporting_symptoms ≠ [] ∧
    ∀ y ∈ sg.supporting_symptoms,
      y ∈ producingSymptoms (extract_symptoms text) sg.code := by
  have hInv := rankerInv_foldl (extract_symptoms text) (symptomPairs (extract_symptoms text))
  unfold RankerInv at hInv
  rw [← collect_eq_pairs] at hInv
  exact hInv.2.2 sg (mem_map_symptoms_to_icd10 h)

/-! ### Claim theorems -/

/-- C1: the claim says that a combination modifier whose required symptoms are
all matched multiplies the base confidence for every code in its multiplier
table, and in particular that "fever and cough" ranks J06.9 strictly above its
base confidence 0.5.  The code does not do this: the modifier entry for
fever+cough exists with multiplier 1.3 for J06.9, its required-symptom check
passes on the extracted symptom set, yet `calculate_confidence` looks the
normalised symptom key (`cough`) up in a table keyed by diagnostic codes, so
the multiplier is never applied and the report carries J06.9 at exactly its
base confidence 1/2. -/
theorem C1_fever_cough_modifier_dead :
    extract_symptoms "fever and cough".data = ["cough".data, "fever".data] ∧
    ("fever+cough".data,
      [("J00".data, q 6 5), ("J06.9".data, q 13 10), ("A49.9".data, q 4 5)]) ∈
      combination_modifiers ∧
    lookupAssoc "J06.9".data
      [("J00".data, q 6 5), ("J06.9".data, q 13 10), ("A49.9".data, q 4 5)] =
      some (q 13 10) ∧
    (("fever+cough".data.splitOn '+').all fun cs =>
      (extract_symptoms "fever and cough".data).any fun s =>
        containsSub (underscoreToSpace cs) (pipeToSpace s)) = true ∧
    calculate_confidence "cough".data (q 1 2) (extract_symptoms "fever and cough".data) =
      q 1 2 ∧
    ((map_symptoms_to_icd10 "fever and cough".data).filter
      (fun s => s.code == "J06.9".data)).map (fun s => s.confidence) = [q 1 2] := by
  decide

/-- C2: for every symptom key of the default lexicon, every base confidence
and every matched-symptom list, `calculate_confidence` returns exactly
`min base 1`: the lookup key is the normalised symptom pattern while every
multiplier table is keyed by diagnostic codes, and the two key sets are
disjoint (`normalized_keys_miss_modifiers`), so no multiplier is ever
applied. -/
theorem C2_calculate_confidence_is_min_base_one (symptom : Str)
    (h : symptom ∈ symptom_mappings.map Prod.fst)
    (base_confidence : ℚ) (all_symptoms : List Str) :
    calculate_confidence symptom base_confidence all_symptoms = min base_confidence 1 :=
  calculate_confidence_fixed h base_confidence all_symptoms

/-- Witness for C2 at the key `fever`, base 1/2 and matched set
`[fever, cough]` (where the fever+cough modifier would fire if it could). -/
theorem C2_calculate_confidence_is_min_base_one_witness :
    "fever".data ∈ symptom_mappings.map Prod.fst ∧
    calculate_confidence "fever".data (q 1 2) ["fever".data, "cough".data] =
      min (q 1 2) 1 :=
  ⟨by decide, C2_calculate_confidence_is_min_base_one "fever".data (by decide)
    (q 1 2) ["fever".data, "cough".data]⟩

/-- C3 counterexample: on "cough and runny nose" the runny-nose pattern
produces confidence 1/2 for J06.9 (it is a producing symptom for that code),
but the returned J06.9 suggestion's supporting list is `["cough"]` only: the
source appends a supporting symptom only when it strictly raises the stored
confidence, so the list is not the union over all producers the claim
states. -/
theorem C3_supporting_symptoms_not_union_cex :
    "runny nose|nasal congestion|stuffy nose".data ∈
      producingSymptoms (extract_symptoms "cough and runny nose".data) "J06.9".data ∧
    ((map_symptoms_to_icd10 "cough and runny nose".data).filter
      (fun s => s.code == "J06.9".data)).map (fun s => s.supporting_symptoms) =
      [["cough".data]] := by
  decide

/-- C3 (amended): every returned suggestion stores the maximum adjusted
confidence over all `(symptom, code)` pairs producing its code, and its
supporting-symptom list is a nonempty list of producing symptoms (the first
producer plus each later one that strictly raised the stored confidence) -
not the full union of producers. -/
theorem C3_confidence_max_supporting_sound (text : Str) (sg : Suggestion)
    (h : sg ∈ map_symptoms_to_icd10 text) :
    sg.confidence ∈ producedConfs (extract_symptoms text) sg.code ∧
    (∀ x ∈ producedConfs (extract_symptoms text) sg.code, x ≤ sg.confidence) ∧
    sg.supporting_symptoms ≠ [] ∧
    ∀ y ∈ sg.supporting_symptoms,
      y ∈ producingSymptoms (extract_symptoms text) sg.code :=
  map_symptoms_invariant h

/-- Witness for C3 on the text "cough" and its top suggestion R05. -/
theorem C3_confidence_max_supporting_sound_witness :
    (⟨"R05".data, "Cough".data, q 9 10, ["cough".data]⟩ : Suggestion) ∈
      map_symptoms_to_icd10 "cough".data ∧
    ((q 9 10 : ℚ) ∈ producedConfs (extract_symptoms "cough".data) "R05".data ∧
     (∀ x ∈ producedConfs (extract_symptoms "cough".data) "R05".data, x ≤ q 9 10) ∧
     (["cough".data] : List Str) ≠ [] ∧
     ∀ y ∈ (["cough".data] : List Str),
       y ∈ producingSymptoms (extract_symptoms "cough".data) "R05".data) :=
  ⟨by decide, C3_confidence_max_supporting_sound "cough".data
    ⟨"R05".data, "Cough".data, q 9 10, ["cough".data]⟩ (by decide)⟩

/-- C4 counterexample: on a text with no lexicon match the report omits both
`disclaimer` and `total_codes` (the source's no-suggestion branch returns a
dict with only `has_suggestions`, `message` and `suggestions`), so the claim
that every report carries all four fields fails. -/
theorem C4_report_fields_cex :
    (generate_icd10_report "hello".data).has_suggestions = false ∧
    (generate_icd10_report "hello".data).total_codes = none ∧
    (generate_icd10_report "hello".data).disclaimer = none := by
  decide

/-- C4 (amended): `generate_icd10_report` always returns `has_suggestions`
and `suggestions`; when suggestions exist it also carries the disclaimer and
`total_codes` equal to the length of the suggestion list, but when nothing
matched it instead carries a `message` and omits `disclaimer` and
`total_codes`. -/
theorem C4_report_fields (text : Str) :
    ((generate_icd10_report text).has_suggestions =
      !(map_symptoms_to_icd10 text).isEmpty) ∧
    ((generate_icd10_report text).total_codes =
      if (generate_icd10_report text).has_suggestions then
        some (generate_icd10_report text).suggestions.length
      else none) ∧
    ((generate_icd10_report text).disclaimer.isSome =
      (generate_icd10_report text).has_suggestions) ∧
    ((generate_icd10_report text).message.isSome =
      !(generate_icd10_report text).has_suggestions) := by
  simp only [generate_icd10_report]
  split
  · rename_i hemp
    simp [hemp]
  · rename_i hemp
    simp [hemp]

/-- C5: for every input text, the suggestion list has length at most 5, is
sorted in non-increasing order of confidence, equals the top-5 truncation of
the stable descending sort of the first-seen-ordered code suggestions, and
that sort is stable: for every confidence value, the suggestions carrying it
appear in exactly their first-seen code order. -/
theorem C5_suggestions_sorted_bounded_stable (text : Str) :
    (map_symptoms_to_icd10 text).length ≤ 5 ∧
    (map_symptoms_to_icd10 text).Pairwise
      (fun a b => b.confidence ≤ a.confidence) ∧
    map_symptoms_to_icd10 text =
      (sortDescend (collectSuggestions (extract_symptoms text))).take 5 ∧
    ∀ c : ℚ,
      (sortDescend (collectSuggestions (extract_symptoms text))).filter
        (fun s => decide (s.confidence = c)) =
      (collectSuggestions (extract_symptoms text)).filter
        (fun s => decide (s.confidence = c)) := by
  have heq : map_symptoms_to_icd10 text =
      (sortDescend (collectSuggestions (extract_symptoms text))).take 5 := by
    rw [map_symptoms_to_icd10]
    split
    · rename_i hemp
      rw [List.isEmpty_iff] at hemp
      rw [hemp]
      rfl
    · rfl
  refine ⟨?_, ?_, heq, ?_⟩
  · rw [heq]
    exact List.length_take_le 5 _
  · rw [heq]
    exact List.Pairwise.sublist (List.take_sublist 5 _) (pairwise_sortDescend _)
  · intro c
    exact filter_sortDescend c _

/-- C6: every confidence score in a returned report lies in the closed
interval `[0, 1]`: with the default tables every adjusted confidence is
`min base 1` for a table base confidence in `[0, 1]`, and merging, sorting,
truncation and formatting only keep such values. -/
theorem C6_confidence_in_unit_interval (text : Str) (s : FormattedSuggestion)
    (h : s ∈ (generate_icd10_report text).suggestions) :
    0 ≤ s.confidence_score ∧ s.confidence_score ≤ 1 := by
  simp only [generate_icd10_report] at h
  split at h
  · exact absurd h (List.not_mem_nil s)
  · obtain ⟨sg, hsg, rfl⟩ := List.mem_map.1 h
    exact producedConf_bounds (map_symptoms_invariant hsg).1

/-- Witness for C6 on the text "cough" and its top report entry. -/
theorem C6_confidence_in_unit_interval_witness :
    (⟨"R05".data, "Cough".data, q 9 10, "High".data, "green".data,
      ["cough".data], 90⟩ : FormattedSuggestion) ∈
      (generate_icd10_report "cough".data).suggestions ∧
    (0 ≤ (q 9 10 : ℚ) ∧ (q 9 10 : ℚ) ≤ 1) :=
  ⟨by decide, C6_confidence_in_unit_interval "cough".data
    ⟨"R05".data, "Cough".data, q 9 10, "High".data, "green".data,
      ["cough".data], 90⟩ (by decide)⟩

/-- Occurrence of the emergency keyword "chest pain" forces an emergency-tier
hit. -/
theorem chest_pain_hits_emergency {t : Str}
    (h : containsSub "chest pain".data t = true) :
    anyKeywordHit emergency_keywords t = true := by
  rw [anyKeywordHit, List.any_eq_true]
  refine ⟨("chest_pain".data,
    ["chest pain".data, "heart attack".data, "crushing pain".data,
     "chest pressure".data]), ?_, ?_⟩
  · rw [emergency_keywords]
    exact List.mem_cons_self _ _
  · rw [List.any_eq_true]
    exact ⟨"chest pain".data, List.mem_cons_self _ _, h⟩

/-- C7: `classify_urgency` evaluates the keyword tiers in strict priority
order on the combined lowercased text - emergency short-circuits to
"immediate", else urgent, else moderate, else "low" - and in particular any
text containing "chest pain" classifies as "immediate" regardless of
lower-tier matches such as "fever". -/
theorem C7_urgency_tier_priority (query response_text : Str) :
    (classify_urgency query response_text = UrgencyLevel.immediate ↔
      anyKeywordHit emergency_keywords
        (lowerStr (query ++ " ".data ++ response_text)) = true) ∧
    (classify_urgency query response_text = UrgencyLevel.urgent ↔
      (anyKeywordHit emergency_keywords
        (lowerStr (query ++ " ".data ++ response_text)) = false ∧
       anyKeywordHit urgent_keywords
        (lowerStr (query ++ " ".data ++ response_text)) = true)) ∧
    (classify_urgency query response_text = UrgencyLevel.moderate ↔
      (anyKeywordHit emergency_keywords
        (lowerStr (query ++ " ".data ++ response_text)) = false ∧
       anyKeywordHit urgent_keywords
        (lowerStr (query ++ " ".data ++ response_text)) = false ∧
       anyKeywordHit moderate_keywords
        (lowerStr (query ++ " ".data ++ response_text)) = true)) ∧
    (classify_urgency query response_text = UrgencyLevel.low ↔
      (anyKeywordHit emergency_keywords
        (lowerStr (query ++ " ".data ++ response_text)) = false ∧
       anyKeywordHit urgent_keywords
        (lowerStr (query ++ " ".data ++ response_text)) = false ∧
       anyKeywordHit moderate_keywords
        (lowerStr (query ++ " ".data ++ response_text)) = false)) ∧
    (containsSub "chest pain".data (lowerStr (query ++ " ".data ++ response_text)) = true →
      classify_urgency query response_text = UrgencyLevel.immediate) := by
  have hlast : containsSub "chest pain".data
      (lowerStr (query ++ " ".data ++ response_text)) = true →
      classify_urgency query response_text = UrgencyLevel.immediate := by
    intro h
    simp only [classify_urgency]
    rw [chest_pain_hits_emergency h]
    rfl
  refine ⟨?_, ?_, ?_, ?_, hlast⟩ <;>
    simp only [classify_urgency] <;>
    cases hE : anyKeywordHit emergency_keywords
      (lowerStr (query ++ " ".data ++ response_text)) <;>
    cases hU : anyKeywordHit urgent_keywords
      (lowerStr (query ++ " ".data ++ response_text)) <;>
    cases hM : anyKeywordHit moderate_keywords
      (lowerStr (query ++ " ".data ++ response_text)) <;>
    simp [hE, hU, hM]

/-- Witness for C7: a text containing both the emergency keyword "chest pain"
and the moderate keyword "fever" classifies as immediate. -/
theorem C7_urgency_tier_priority_witness :
    containsSub "chest pain".data
      (lowerStr ("chest pain and fever".data ++ " ".data ++ [])) = true ∧
    classify_urgency "chest pain and fever".data [] = UrgencyLevel.immediate :=
  ⟨by decide, (C7_urgency_tier_priority "chest pain and fever".data []).2.2.2.2
    (by decide)⟩

/-- C8: a text matching no lexicon pattern yields a structured negative
report - `has_suggestions = false`, an empty suggestion list and an
explanatory message - and, the embedding being a total function, never an
exception. -/
theorem C8_no_match_structured_result (text : Str)
    (h : extract_symptoms text = []) :
    (generate_icd10_report text).has_suggestions = false ∧
    (generate_icd10_report text).suggestions = [] ∧
    (generate_icd10_report text).message.isSome = true := by
  have hmap : map_symptoms_to_icd10 text = [] := by
    rw [map_symptoms_to_icd10, h]
    rfl
  simp [generate_icd10_report, hmap]

/-- Witness for C8 at the text "hello". -/
theorem C8_no_match_structured_result_witness :
    extract_symptoms "hello".data = [] ∧
    ((generate_icd10_report "hello".data).has_suggestions = false ∧
     (generate_icd10_report "hello".data).suggestions = [] ∧
     (generate_icd10_report "hello".data).message.isSome = true) :=
  ⟨by decide, C8_no_match_structured_result "hello".data (by decide)⟩

/-- C9: a query in which no urgency keyword of any tier occurs (as a
substring of the lowercased combined text, with the empty default response)
and no domain keyword occurs classifies as "low" urgency with the single
fallback domain "general_medicine". -/
theorem C9_no_keyword_defaults (query : Str)
    (hE : ∀ cat ∈ emergency_keywords, ∀ k ∈ cat.2,
      containsSub k (lowerStr (query ++ " ".data)) = false)
    (hU : ∀ cat ∈ urgent_keywords, ∀ k ∈ cat.2,
      containsSub k (lowerStr (query ++ " ".data)) = false)
    (hM : ∀ cat ∈ moderate_keywords, ∀ k ∈ cat.2,
      containsSub k (lowerStr (query ++ " ".data)) = false)
    (hD : ∀ d ∈ domain_keywords, ∀ k ∈ d.2,
      containsSub k (lowerStr query) = false) :
    classify_urgency query [] = UrgencyLevel.low ∧
    classify_domain query = ["general_medicine".data] := by
  have hhit : ∀ (T : List (Str × List Str)),
      (∀ cat ∈ T, ∀ k ∈ cat.2,
        containsSub k (lowerStr (query ++ " ".data)) = false) →
      anyKeywordHit T (lowerStr (query ++ " ".data)) = false := by
    intro T hT
    rw [anyKeywordHit, List.any_eq_false]
    intro cat hcat habs
    obtain ⟨k, hk, hck⟩ := List.any_eq_true.1 habs
    rw [hT cat hcat k hk] at hck
    exact Bool.false_ne_true hck
  constructor
  · simp only [classify_urgency, List.append_nil]
    rw [hhit emergency_keywords hE, hhit urgent_keywords hU,
      hhit moderate_keywords hM]
    rfl
  · simp only [classify_domain]
    have hfil : (domain_keywords.filter fun d =>
        d.2.any fun k => containsSub k (lowerStr query)) = [] := by
      rw [List.filter_eq_nil_iff]
      intro d hd habs
      obtain ⟨k, hk, hck⟩ := List.any_eq_true.1 habs
      rw [hD d hd k hk] at hck
      exact Bool.false_ne_true hck
    rw [hfil]
    rfl

/-- Witness for C9 at the query "hello". -/
theorem C9_no_keyword_defaults_witness :
    classify_urgency "hello".data [] = UrgencyLevel.low ∧
    classify_domain "hello".data = ["general_medicine".data] :=
  C9_no_keyword_defaults "hello".data (by decide) (by decide) (by decide)
    (by decide)

/-- Keys of the default lexicon that contain no pipe split to themselves and
are unchanged by stripping. -/
theorem no_pipe_key_facts :
    ∀ key ∈ symptom_mappings.map Prod.fst, '|' ∉ key →
      key.splitOn '|' = [key] ∧ stripStr key = key := by decide

/-- C10: `extract_symptoms` returns, without duplicates, exactly those
lexicon keys of which at least one pipe-separated alternative (the key itself
when it has no pipe) matches the lowercased text at word boundaries. -/
theorem C10_extract_symptoms_characterization (text : Str) :
    (extract_symptoms text).Nodup ∧
    ∀ key : Str,
      (key ∈ extract_symptoms text ↔
        (key ∈ symptom_mappings.map Prod.fst ∧
         ((key.splitOn '|').any fun alt =>
           wordBoundarySearch (stripStr alt) (lowerStr text)) = true)) := by
  constructor
  · exact List.Nodup.filter _
      (by decide : (symptom_mappings.map Prod.fst).Nodup)
  · intro key
    rw [extract_symptoms, List.mem_filter]
    constructor
    · rintro ⟨hmem, hpat⟩
      refine ⟨hmem, ?_⟩
      rw [patternFound] at hpat
      by_cases hp : '|' ∈ key
      · rw [if_pos hp] at hpat
        exact hpat
      · rw [if_neg hp] at hpat
        obtain ⟨hsplit, hstrip⟩ := no_pipe_key_facts key hmem hp
        rw [hsplit, List.any_cons, List.any_nil, hstrip, Bool.or_false]
        exact hpat
    · rintro ⟨hmem, hpat⟩
      refine ⟨hmem, ?_⟩
      rw [patternFound]
      by_cases hp : '|' ∈ key
      · rw [if_pos hp]
        exact hpat
      · rw [if_neg hp]
        obtain ⟨hsplit, hstrip⟩ := no_pipe_key_facts key hmem hp
        rw [hsplit, List.any_cons, List.any_nil, hstrip, Bool.or_false] at hpat
        exact hpat
